import Mathlib

/-!
Verification of the LEAP-call screening engine
(`src/leap-screener/scripts/leap_screener.py`) against its specification.

The Python source is shallowly embedded: floats become `ℚ`, `Optional[float]`
becomes `Option ℚ`, fallible fetches become `Option`/`Except` values, and the
two external numeric routines the script delegates to third-party libraries
(`math.log10` and `ta.momentum.RSIIndicator`) are abstract function
parameters, since no screened property depends on their values.
-/

namespace LeapScreener

/-- `clamp(v, low=0.0, high=100.0) = max(low, min(high, v))`; every call site in
the source uses the default bounds, so only that instance is embedded. -/
def clamp (v : ℚ) : ℚ := max 0 (min 100 v)

/-- Python's `round(x, 2)` (banker's rounding to two decimals), idealized over
exact rationals: ties at the third decimal go to the even hundredth. -/
def round2 (q : ℚ) : ℚ :=
  let n : ℤ := ⌊q * 100⌋
  let frac : ℚ := q * 100 - n
  let r : ℤ := if 1/2 < frac then n + 1 else if frac < 1/2 then n else if n % 2 = 0 then n else n + 1
  (r : ℚ) / 100

/-- Python's `v or d` on an `Optional[float]`: `None` and `0.0` are falsy and
yield the default. -/
def orFalsy (v : Option ℚ) (d : ℚ) : ℚ :=
  match v with
  | none => d
  | some x => if x = 0 then d else x

/-- Threshold constants from the top of the script. -/
def REV_GROWTH_MIN : ℚ := 0.10

def EPS_GROWTH_MIN : ℚ := 0.15

def PEG_MAX : ℚ := 2.0

def MARKET_CAP_MIN : ℚ := 5000000000

def UPSIDE_MIN : ℚ := 0.15

def RSI_MAX : ℚ := 60

def DRAWDOWN_MIN : ℚ := -35.0

def LONG_DTE_MONTHS : ℤ := 9

def EPS_GROWTH_CAP : ℚ := 4.0

def REV_GROWTH_CAP : ℚ := 2.0

def EPS_VOLATILITY_MAX : ℚ := 5.0

lemma clamp_nonneg (v : ℚ) : 0 ≤ clamp v := le_max_left 0 _

lemma clamp_le_100 (v : ℚ) : clamp v ≤ 100 :=
  max_le (by norm_num) (min_le_left _ _)

lemma round2_nonneg (q : ℚ) (h : 0 ≤ q) : 0 ≤ round2 q := by
  unfold round2
  have hn : (0 : ℤ) ≤ ⌊q * 100⌋ := Int.floor_nonneg.mpr (by positivity)
  have hnq : (0 : ℚ) ≤ (⌊q * 100⌋ : ℚ) := by exact_mod_cast hn
  dsimp only
  split_ifs <;> (apply div_nonneg _ (by norm_num)) <;> push_cast <;> linarith

lemma round2_le_100 (q : ℚ) (h : q ≤ 100) : round2 q ≤ 100 := by
  unfold round2
  have h100 : q * 100 ≤ 10000 := by linarith
  have hfl : (⌊q * 100⌋ : ℚ) ≤ q * 100 := Int.floor_le _
  have hub : (⌊q * 100⌋ : ℚ) ≤ 10000 := le_trans hfl h100
  dsimp only
  split_ifs with h1 h2 h3
  · -- round up: the fractional part exceeds 1/2, so the floor is at most 9999
    have hlt : (⌊q * 100⌋ : ℚ) < 10000 := by linarith
    have hlt' : ⌊q * 100⌋ < 10000 := by exact_mod_cast hlt
    rw [div_le_iff₀ (by norm_num : (0:ℚ) < 100)]
    push_cast
    have : ⌊q * 100⌋ ≤ 9999 := by omega
    have : (⌊q * 100⌋ : ℚ) ≤ 9999 := by exact_mod_cast this
    linarith
  · rw [div_le_iff₀ (by norm_num : (0:ℚ) < 100)]
    linarith
  · rw [div_le_iff₀ (by norm_num : (0:ℚ) < 100)]
    linarith
  · -- exact tie rounded up to the even hundredth
    have htie : q * 100 - (⌊q * 100⌋ : ℚ) = 1/2 := le_antisymm (not_lt.mp h1) (not_lt.mp h2)
    have hlt : (⌊q * 100⌋ : ℚ) < 10000 := by linarith
    have hlt' : ⌊q * 100⌋ < 10000 := by exact_mod_cast hlt
    rw [div_le_iff₀ (by norm_num : (0:ℚ) < 100)]
    push_cast
    have : ⌊q * 100⌋ ≤ 9999 := by omega
    have : (⌊q * 100⌋ : ℚ) ≤ 9999 := by exact_mod_cast this
    linarith

/-- The metric dictionary handed to `score_stock`. -/
structure ScoreMetrics where
  revenue_growth : Option ℚ
  eps_growth : Option ℚ
  peg : Option ℚ
  market_cap : Option ℚ
  upside : Option ℚ
  rsi14 : Option ℚ
  drawdown_52w_pct : Option ℚ
  vol_quot : Option ℚ          -- `vol_ratio` in the source
  call_spread_pct : Option ℚ
  iv_rank : Option ℚ
  required_move_for_2x_pct : Option ℚ
  deriving Repr, DecidableEq

/-- The drawdown sub-term of the technical block in `score_stock`
(`dd = drawdown if drawdown is not None else 0` is applied by the caller). -/
def subDrawdown (dd : ℚ) : ℚ :=
  if dd < -40 then 5
  else if -25 ≤ dd ∧ dd ≤ -5 then 90
  else if dd < -25 then 50
  else 40

/-- The volume sub-term of the technical block in `score_stock`:
`clamp(((vol_ratio or 1.0) - 0.8) / 1.2 * 100)`. -/
def subVol (vq : Option ℚ) : ℚ := clamp ((orFalsy vq 1.0 - 0.8) / 1.2 * 100)

/-- `score_stock`: the 0-100 composite.  `log10` abstracts `math.log10`. -/
def scoreStock (log10 : ℚ → ℚ) (m : ScoreMetrics) : ℚ :=
  let s_rev := clamp ((orFalsy m.revenue_growth 0 - 0.05) / 0.30 * 100)
  let s_eps := clamp ((orFalsy m.eps_growth 0 - 0.05) / 0.40 * 100)
  let s_peg := clamp ((2.0 - m.peg.getD 2.0) / 1.5 * 100)
  let s_mcap := clamp ((log10 (max (orFalsy m.market_cap 1) 1) - 9.0) / 3.0 * 100)
  let s_fund := (s_rev + s_eps + s_peg + s_mcap) / 4
  let s_val := clamp ((2.0 - m.peg.getD 2.0) / 2.0 * 100)
  let s_rsi := clamp ((55 - m.rsi14.getD 60) / 25 * 100)
  let s_dd := subDrawdown (m.drawdown_52w_pct.getD 0)
  let s_vol := subVol m.vol_quot
  let s_tech := (s_rsi + s_dd + s_vol) / 3
  let s_cat := clamp ((orFalsy m.upside 0 - 0.10) / 0.50 * 100)
  let s_spread := clamp ((20 - m.call_spread_pct.getD 20) / 20 * 100)
  let s_move := clamp ((80 - m.required_move_for_2x_pct.getD 80) / 80 * 100)
  let s_iv := match m.iv_rank with
    | none => 50
    | some ivr => clamp (100 - |ivr - 35| * 2.2)
  let s_opt := (s_spread + s_move + s_iv) / 3
  let final := s_fund * 0.25 + s_val * 0.20 + s_tech * 0.15 + s_cat * 0.20 + s_opt * 0.20
  round2 (clamp final)

lemma scoreStock_nonneg (log10 : ℚ → ℚ) (m : ScoreMetrics) : 0 ≤ scoreStock log10 m := by
  simp only [scoreStock]
  exact round2_nonneg _ (clamp_nonneg _)

lemma scoreStock_le_100 (log10 : ℚ → ℚ) (m : ScoreMetrics) : scoreStock log10 m ≤ 100 := by
  simp only [scoreStock]
  exact round2_le_100 _ (clamp_le_100 _)

/-- C6: the Scorer's drawdown sub-term is the stated piecewise rule:
below -40 gives 5, [-25,-5] gives 90, (-40,-25) gives 50, above -5 gives 40;
in particular -18 gives 90 and -42 gives 5. -/
theorem drawdown_subscore_piecewise (dd : ℚ) :
    (dd < -40 → subDrawdown dd = 5) ∧
    (-25 ≤ dd → dd ≤ -5 → subDrawdown dd = 90) ∧
    (-40 < dd → dd < -25 → subDrawdown dd = 50) ∧
    (-5 < dd → subDrawdown dd = 40) ∧
    subDrawdown (-18) = 90 ∧ subDrawdown (-42) = 5 := by
  refine ⟨?_, ?_, ?_, ?_, by norm_num [subDrawdown], by norm_num [subDrawdown]⟩
  · intro h
    unfold subDrawdown
    rw [if_pos h]
  · intro h1 h2
    unfold subDrawdown
    rw [if_neg (by linarith), if_pos ⟨h1, h2⟩]
  · intro h1 h2
    unfold subDrawdown
    rw [if_neg (by linarith), if_neg (fun hc => absurd hc.1 (by linarith)), if_pos h2]
  · intro h
    unfold subDrawdown
    rw [if_neg (by linarith), if_neg (fun hc => absurd hc.2 (by linarith)), if_neg (by linarith)]

/-- Witness for C6 at the concrete drawdown -30 (the 50-band). -/
theorem drawdown_subscore_piecewise_witness : subDrawdown (-30) = 50 :=
  (drawdown_subscore_piecewise (-30)).2.2.1 (by norm_num) (by norm_num)

/-- C10: an absent volume ratio (and likewise a zero one) is substituted by 1.0
in the Scorer's volume sub-term, giving (1.0-0.8)/1.2*100 = 50/3 (about 16.67)
instead of the worst-of-range 0; any measured positive ratio at or below 0.8
scores 0, strictly below the substituted case. -/
theorem vol_subscore_default :
    subVol none = 50/3 ∧ subVol (some 0) = 50/3 ∧
    ∀ r : ℚ, 0 < r → r ≤ 0.8 → subVol (some r) = 0 ∧ subVol (some r) < subVol none := by
  refine ⟨by norm_num [subVol, orFalsy, clamp], by norm_num [subVol, orFalsy, clamp], ?_⟩
  intro r h0 h8
  have hne : r ≠ 0 := ne_of_gt h0
  have hval : subVol (some r) = 0 := by
    simp only [subVol, orFalsy]
    rw [if_neg hne]
    have hx : (r - 0.8) / 1.2 * 100 ≤ 0 := by
      have hrw : (r - 0.8) / 1.2 * 100 = (r - 0.8) * (250/3) := by ring
      rw [hrw]
      nlinarith
    unfold clamp
    rw [min_eq_right (le_trans hx (by norm_num)), max_eq_left hx]
  refine ⟨hval, ?_⟩
  rw [hval]
  norm_num [subVol, orFalsy, clamp]

/-- Witness for C10 at the concrete measured ratio 1/2. -/
theorem vol_subscore_default_witness :
    subVol (some (1/2)) = 0 ∧ subVol (some (1/2)) < subVol none :=
  vol_subscore_default.2.2 (1/2) (by norm_num) (by norm_num)

/-- One row of a call-option chain, with the fields `get_option_metrics` reads
(each already passed through `safe_float`, hence `Option ℚ`).  Open interest is
kept total since it is only a sort key. -/
structure CallContract where
  strike : Option ℚ
  bid : Option ℚ
  ask : Option ℚ
  iv : Option ℚ               -- `impliedVolatility`
  openInterest : ℚ
  deriving Repr, DecidableEq

/-- One listed expiration: `parsed` is the `strptime` result as a day number
(`none` = unparseable string), `chain` is the `option_chain` fetch for it
(`none` = the fetch raised, which the source swallows per-expiration). -/
structure ExpiryEntry where
  parsed : Option ℤ
  chain : Option (List CallContract)
  deriving Repr, DecidableEq

/-- `|strike - spot|`, the sort key of `pick_atm_call`; an absent strike has no
key and sorts last (pandas puts NaN keys last). -/
def atmDist (c : CallContract) (spot : ℚ) : Option ℚ := c.strike.map (fun s => |s - spot|)

/-- Strict "sorts before" on distance keys, absent keys last. -/
def distBefore (d1 d2 : Option ℚ) : Bool :=
  match d1, d2 with
  | some a, some b => decide (a < b)
  | some _, none => true
  | none, _ => false

/-- Strict lexicographic "sorts before" used by `pick_atm_call`: distance
ascending, then open interest descending. -/
def atmBefore (spot : ℚ) (c d : CallContract) : Bool :=
  distBefore (atmDist c spot) (atmDist d spot) ||
    (decide (atmDist c spot = atmDist d spot) && decide (d.openInterest < c.openInterest))

/-- `pick_atm_call(calls, spot)`: the row minimizing |strike - spot| with open
interest as tie-break.  The source sorts with an unstable quicksort and takes
row 0; among rows equal under both keys we fix the first occurrence. -/
def pickAtmCall (calls : List CallContract) (spot : ℚ) : Option CallContract :=
  match calls with
  | [] => none
  | c :: cs => some (cs.foldl (fun best x => if atmBefore spot x best then x else best) c)

/-- Stable insert for the ascending sort of `valid_expiries` by parsed date. -/
def insertKeyed (x : ExpiryEntry × ℤ) : List (ExpiryEntry × ℤ) → List (ExpiryEntry × ℤ)
  | [] => [x]
  | y :: ys => if x.2 ≤ y.2 then x :: y :: ys else y :: insertKeyed x ys

/-- Stable sort of `valid_expiries` by parsed date (Python `list.sort`). -/
def sortKeyed : List (ExpiryEntry × ℤ) → List (ExpiryEntry × ℤ)
  | [] => []
  | x :: xs => insertKeyed x (sortKeyed xs)

/-- The `valid_expiries` list: parseable expirations strictly after
`today + minMonths*30` days, paired with their dates, sorted ascending. -/
def eligibleSorted (today : ℤ) (minMonths : ℤ) (options : List ExpiryEntry) :
    List (ExpiryEntry × ℤ) :=
  let cutoff := today + minMonths * 30
  sortKeyed (options.filterMap (fun e =>
    match e.parsed with
    | some d => if cutoff < d then some (e, d) else none
    | none => none))

/-- One step of the first scan loop: skip fetch failures and missing ATM rows,
collect the ATM implied volatility when positive, and remember the ATM row of
the preferred (= earliest, `prefDate`) expiration. -/
def scanStep (prefDate : ℤ) (spot : ℚ) (st : List ℚ × Option CallContract)
    (p : ExpiryEntry × ℤ) : List ℚ × Option CallContract :=
  match p.1.chain with
  | none => st
  | some calls =>
    match pickAtmCall calls spot with
    | none => st
    | some atm =>
      let ivs := match atm.iv with
        | some iv => if 0 < iv then st.1 ++ [iv] else st.1
        | none => st.1
      let chosen := if p.2 = prefDate then some atm else st.2
      (ivs, chosen)

/-- The first scan loop of `get_option_metrics` over all eligible expirations. -/
def scan1 (prefDate : ℤ) (spot : ℚ) (l : List (ExpiryEntry × ℤ)) :
    List ℚ × Option CallContract :=
  l.foldl (scanStep prefDate spot) ([], none)

/-- The collected ATM implied volatilities (`atm_ivs`). -/
def observedIvs (today minMonths : ℤ) (options : List ExpiryEntry) (spot : ℚ) : List ℚ :=
  match eligibleSorted today minMonths options with
  | [] => []
  | first :: rest => (scan1 first.2 spot (first :: rest)).1

/-- The fallback loop: first eligible expiration (ascending) whose chain fetch
succeeds and yields an ATM row; it becomes the new preferred expiration. -/
def fallbackPick (spot : ℚ) (l : List (ExpiryEntry × ℤ)) : Option (ℤ × CallContract) :=
  l.findSome? (fun p =>
    match p.1.chain with
    | none => none
    | some calls => (pickAtmCall calls spot).map (fun a => (p.2, a)))

/-- The finally chosen contract together with its expiration date
(`preferred_expiry`, `chosen_call` after both loops). -/
def chosenPick (today minMonths : ℤ) (options : List ExpiryEntry) (spot : ℚ) :
    Option (ℤ × CallContract) :=
  match eligibleSorted today minMonths options with
  | [] => none
  | first :: rest =>
    match (scan1 first.2 spot (first :: rest)).2 with
    | some c => some (first.2, c)
    | none => fallbackPick spot (first :: rest)

/-- The reason strings `get_option_metrics` can report. -/
inductive OptReason where
  | noChain        -- "无可用期权链"
  | noLongExpiry   -- "无>{min_months}个月到期期权"
  | noAtm          -- "长期期权存在但无可用ATM Call"
  | ok
  deriving Repr, DecidableEq

/-- The dictionary `get_option_metrics` returns. -/
structure OptResult where
  layer3_pass : Bool
  reason : OptReason
  expiry : Option ℤ
  strike : Option ℚ
  bid : Option ℚ
  ask : Option ℚ
  spread_pct : Option ℚ
  iv_rank : Option ℚ
  required_move_for_2x_pct : Option ℚ
  deriving Repr, DecidableEq

/-- The all-absent failure dictionary. -/
def optFail (r : OptReason) : OptResult :=
  ⟨false, r, none, none, none, none, none, none, none⟩

/-- The successful tail of `get_option_metrics`, once a contract is chosen:
spread / premium from bid-ask, the IV-rank proxy from `atm_ivs`, and the
required move to double. -/
def assembleQuote (atmIvs : List ℚ) (spot : ℚ) (prefDate : ℤ) (chosen : CallContract) :
    OptResult :=
  let spreadPremium : Option ℚ × Option ℚ :=
    match chosen.bid, chosen.ask with
    | some b, some a =>
      if 0 < a then
        let mid := (b + a) / 2
        (if 0 < mid then some ((a - b) / mid * 100) else none, some mid)
      else (none, none)
    | _, _ => (none, none)
  let ivRank : Option ℚ :=
    match chosen.iv with
    | none => none
    | some ivNow =>
      match atmIvs with
      | x :: y :: rest =>
        let ivMin := (y :: rest).foldl min x
        let ivMax := (y :: rest).foldl max x
        if ivMin < ivMax then some (clamp ((ivNow - ivMin) / (ivMax - ivMin) * 100))
        else none
      | _ => none
  let reqMove : Option ℚ :=
    match chosen.strike, spreadPremium.2 with
    | some s, some premium =>
      -- `if strike is not None and premium is not None and spot and spot > 0`
      if spot ≠ 0 ∧ 0 < spot then some (((s + 2 * premium) / spot - 1) * 100)
      else none
    | _, _ => none
  { layer3_pass := true
    reason := .ok
    expiry := some prefDate
    strike := chosen.strike
    bid := chosen.bid
    ask := chosen.ask
    spread_pct := spreadPremium.1
    iv_rank := ivRank
    required_move_for_2x_pct := reqMove }

/-- `get_option_metrics(tk, spot, min_months)`. -/
def getOptionMetrics (today minMonths : ℤ) (options : List ExpiryEntry) (spot : ℚ) :
    OptResult :=
  if options.isEmpty then optFail .noChain
  else if (eligibleSorted today minMonths options).isEmpty then optFail .noLongExpiry
  else
    match chosenPick today minMonths options spot with
    | none => optFail .noAtm
    | some (prefDate, chosen) =>
      assembleQuote (observedIvs today minMonths options spot) spot prefDate chosen

lemma mem_insertKeyed {x a : ExpiryEntry × ℤ} :
    ∀ l : List (ExpiryEntry × ℤ), a ∈ insertKeyed x l ↔ a = x ∨ a ∈ l := by
  intro l
  induction l with
  | nil => simp [insertKeyed]
  | cons y ys ih =>
    unfold insertKeyed
    split_ifs
    · simp
    · simp only [List.mem_cons, ih]
      tauto

lemma mem_sortKeyed {a : ExpiryEntry × ℤ} :
    ∀ l : List (ExpiryEntry × ℤ), a ∈ sortKeyed l ↔ a ∈ l := by
  intro l
  induction l with
  | nil => simp [sortKeyed]
  | cons y ys ih => simp [sortKeyed, mem_insertKeyed, ih]

lemma insertKeyed_ne_nil {x : ExpiryEntry × ℤ} {l : List (ExpiryEntry × ℤ)} :
    insertKeyed x l ≠ [] := by
  cases l with
  | nil => simp [insertKeyed]
  | cons y ys =>
    unfold insertKeyed
    split_ifs <;> simp

lemma sortKeyed_eq_nil_iff {l : List (ExpiryEntry × ℤ)} : sortKeyed l = [] ↔ l = [] := by
  cases l with
  | nil => simp [sortKeyed]
  | cons y ys => simp [sortKeyed, insertKeyed_ne_nil]

/-- Membership in the eligible-expiration list, phrased over the raw input. -/
lemma mem_eligibleSorted {today minMonths : ℤ} {options : List ExpiryEntry}
    {e : ExpiryEntry} {d : ℤ} :
    (e, d) ∈ eligibleSorted today minMonths options ↔
      e ∈ options ∧ e.parsed = some d ∧ today + minMonths * 30 < d := by
  unfold eligibleSorted
  rw [mem_sortKeyed, List.mem_filterMap]
  constructor
  · rintro ⟨x, hx, hfx⟩
    cases hp : x.parsed with
    | none => rw [hp] at hfx; simp at hfx
    | some dd =>
      rw [hp] at hfx
      dsimp only at hfx
      by_cases hcut : today + minMonths * 30 < dd
      · rw [if_pos hcut] at hfx
        simp only [Option.some.injEq, Prod.mk.injEq] at hfx
        obtain ⟨he, hd⟩ := hfx
        subst he; subst hd
        exact ⟨hx, hp, hcut⟩
      · rw [if_neg hcut] at hfx
        simp at hfx
  · rintro ⟨he, hp, hd⟩
    refine ⟨e, he, ?_⟩
    rw [hp]
    dsimp only
    rw [if_pos hd]

lemma findSome?_isSome_iff {α β : Type} (f : α → Option β) :
    ∀ l : List α, (l.findSome? f).isSome ↔ ∃ a ∈ l, (f a).isSome := by
  intro l
  induction l with
  | nil => simp [List.findSome?]
  | cons x xs ih =>
    rw [List.findSome?_cons]
    cases hfx : f x with
    | none => simp [hfx, ih]
    | some b => simp [hfx]

/-- `p` contributes an ATM pick: its chain fetch succeeded and yielded one. -/
def hasAtm (spot : ℚ) (p : ExpiryEntry × ℤ) : Prop :=
  ∃ cs, p.1.chain = some cs ∧ (pickAtmCall cs spot).isSome

instance (spot : ℚ) (p : ExpiryEntry × ℤ) : Decidable (hasAtm spot p) := by
  unfold hasAtm
  cases p.1.chain with
  | none => exact isFalse (by simp)
  | some cs => exact decidable_of_iff ((pickAtmCall cs spot).isSome = true) (by simp)

lemma fallbackPick_isSome_iff {spot : ℚ} {l : List (ExpiryEntry × ℤ)} :
    (fallbackPick spot l).isSome ↔ ∃ p ∈ l, hasAtm spot p := by
  unfold fallbackPick
  rw [findSome?_isSome_iff]
  apply exists_congr
  intro p
  apply and_congr_right
  intro _
  cases hc : p.1.chain with
  | none => simp [hasAtm, hc]
  | some cs => simp [hasAtm, hc]

lemma scan_chosen_isSome {pd : ℤ} {spot : ℚ} :
    ∀ (l : List (ExpiryEntry × ℤ)) (st : List ℚ × Option CallContract),
      ((l.foldl (scanStep pd spot) st).2).isSome →
      st.2.isSome ∨ ∃ p ∈ l, hasAtm spot p := by
  intro l
  induction l with
  | nil => intro st h; exact Or.inl h
  | cons x xs ih =>
    intro st h
    rw [List.foldl_cons] at h
    rcases ih _ h with h' | ⟨p, hp, hcs⟩
    · unfold scanStep at h'
      cases hx : x.1.chain with
      | none => rw [hx] at h'; exact Or.inl h'
      | some calls =>
        rw [hx] at h'
        dsimp only at h'
        cases hpk : pickAtmCall calls spot with
        | none => rw [hpk] at h'; exact Or.inl h'
        | some atm =>
          rw [hpk] at h'
          dsimp only at h'
          by_cases hdate : x.2 = pd
          · exact Or.inr ⟨x, List.mem_cons_self .., ⟨calls, hx, by rw [hpk]; rfl⟩⟩
          · rw [if_neg hdate] at h'
            exact Or.inl h'
    · exact Or.inr ⟨p, List.mem_cons_of_mem _ hp, hcs⟩

lemma chosenPick_isSome_iff {today minMonths : ℤ} {options : List ExpiryEntry} {spot : ℚ} :
    (chosenPick today minMonths options spot).isSome ↔
      ∃ p ∈ eligibleSorted today minMonths options, hasAtm spot p := by
  unfold chosenPick
  cases he : eligibleSorted today minMonths options with
  | nil => simp
  | cons first rest =>
    cases hs : (scan1 first.2 spot (first :: rest)).2 with
    | some c =>
      dsimp only
      rw [hs]
      dsimp only
      simp only [Option.isSome_some, true_iff]
      have hfold : ((first :: rest).foldl (scanStep first.2 spot) ([], none)).2.isSome = true := by
        rw [show (first :: rest).foldl (scanStep first.2 spot) ([], none)
              = scan1 first.2 spot (first :: rest) from rfl, hs]
        rfl
      rcases scan_chosen_isSome _ _ hfold with h | h
      · simp at h
      · exact h
    | none =>
      dsimp only
      rw [hs]
      dsimp only
      rw [fallbackPick_isSome_iff]

/-- If a contract was chosen, the whole result is the assembled pass record. -/
lemma getOptionMetrics_of_chosen {today minMonths : ℤ} {options : List ExpiryEntry}
    {spot : ℚ} {pd : ℤ} {c : CallContract}
    (h : chosenPick today minMonths options spot = some (pd, c)) :
    getOptionMetrics today minMonths options spot =
      assembleQuote (observedIvs today minMonths options spot) spot pd c := by
  have hsome : (chosenPick today minMonths options spot).isSome := by rw [h]; rfl
  obtain ⟨p, hp, -⟩ := chosenPick_isSome_iff.mp hsome
  have helig : eligibleSorted today minMonths options ≠ [] := List.ne_nil_of_mem hp
  have hopts : options ≠ [] := by
    obtain ⟨he, -, -⟩ := mem_eligibleSorted.mp (show (p.1, p.2) ∈ _ from hp)
    exact List.ne_nil_of_mem he
  unfold getOptionMetrics
  rw [if_neg (by simpa using hopts), if_neg (by simpa using helig), h]

/-- C3 (amended): Layer 3 passes iff some expiration strictly beyond the
long-dated cutoff has a fetchable chain yielding an ATM pick — no usable
bid/ask is required; and on failure every OptionQuote field is absent. -/
theorem option_quote_population (today minMonths : ℤ) (options : List ExpiryEntry) (spot : ℚ) :
    ((getOptionMetrics today minMonths options spot).layer3_pass = false →
      (getOptionMetrics today minMonths options spot).expiry = none ∧
      (getOptionMetrics today minMonths options spot).strike = none ∧
      (getOptionMetrics today minMonths options spot).bid = none ∧
      (getOptionMetrics today minMonths options spot).ask = none ∧
      (getOptionMetrics today minMonths options spot).spread_pct = none ∧
      (getOptionMetrics today minMonths options spot).iv_rank = none ∧
      (getOptionMetrics today minMonths options spot).required_move_for_2x_pct = none) ∧
    ((getOptionMetrics today minMonths options spot).layer3_pass = true ↔
      ∃ e ∈ options, ∃ d, e.parsed = some d ∧ today + minMonths * 30 < d ∧
        ∃ cs, e.chain = some cs ∧ (pickAtmCall cs spot).isSome) := by
  have hkey : (∃ p ∈ eligibleSorted today minMonths options, hasAtm spot p) ↔
      (∃ e ∈ options, ∃ d, e.parsed = some d ∧ today + minMonths * 30 < d ∧
        ∃ cs, e.chain = some cs ∧ (pickAtmCall cs spot).isSome) := by
    constructor
    · rintro ⟨⟨e, d⟩, hp, cs, hcs, hpk⟩
      obtain ⟨he, hparse, hcut⟩ := mem_eligibleSorted.mp hp
      exact ⟨e, he, d, hparse, hcut, cs, hcs, hpk⟩
    · rintro ⟨e, he, d, hparse, hcut, cs, hcs, hpk⟩
      exact ⟨(e, d), mem_eligibleSorted.mpr ⟨he, hparse, hcut⟩, cs, hcs, hpk⟩
  constructor
  · intro hfail
    unfold getOptionMetrics at hfail ⊢
    split_ifs at hfail ⊢ with h1 h2
    · exact ⟨rfl, rfl, rfl, rfl, rfl, rfl, rfl⟩
    · exact ⟨rfl, rfl, rfl, rfl, rfl, rfl, rfl⟩
    · cases hcp : chosenPick today minMonths options spot with
      | none => exact ⟨rfl, rfl, rfl, rfl, rfl, rfl, rfl⟩
      | some pc =>
        rw [hcp] at hfail
        cases pc with
        | mk pd c =>
          dsimp only at hfail
          simp [assembleQuote] at hfail
  · rw [← hkey, ← chosenPick_isSome_iff]
    unfold getOptionMetrics
    split_ifs with h1 h2
    · constructor
      · intro h; exact absurd h (by simp [optFail])
      · intro h
        exfalso
        obtain ⟨p, hp, -⟩ := chosenPick_isSome_iff.mp h
        obtain ⟨he, -, -⟩ := mem_eligibleSorted.mp (show (p.1, p.2) ∈ _ from hp)
        rw [List.isEmpty_iff] at h1
        rw [h1] at he
        simp at he
    · constructor
      · intro h; exact absurd h (by simp [optFail])
      · intro h
        exfalso
        obtain ⟨p, hp, -⟩ := chosenPick_isSome_iff.mp h
        rw [List.isEmpty_iff] at h2
        rw [h2] at hp
        simp at hp
    · cases hcp : chosenPick today minMonths options spot with
      | none => simp [optFail]
      | some pc =>
        cases pc with
        | mk pd c => simp [assembleQuote]

/-- Witness for C3's amended invariant at a concretely failing input
(no listed expirations at all): every field is absent. -/
theorem option_quote_population_witness :
    (getOptionMetrics 0 9 [] 100).expiry = none ∧
    (getOptionMetrics 0 9 [] 100).iv_rank = none :=
  ⟨((option_quote_population 0 9 [] 100).1 rfl).1,
   ((option_quote_population 0 9 [] 100).1 rfl).2.2.2.2.2.1⟩

/-- C3 counterexample: with a single long-dated expiration whose only call has
neither bid nor ask (no usable quote anywhere), Layer 3 still passes and the
expiry/strike fields populate — refuting "populated only when at least one
contract has a usable bid/ask quote". -/
theorem layer3_pass_without_usable_quote :
    (getOptionMetrics 0 9 [⟨some 300, some [⟨some 105, none, none, none, 0⟩]⟩] 100).layer3_pass
        = true ∧
    (getOptionMetrics 0 9 [⟨some 300, some [⟨some 105, none, none, none, 0⟩]⟩] 100).expiry
        = some 300 ∧
    (getOptionMetrics 0 9 [⟨some 300, some [⟨some 105, none, none, none, 0⟩]⟩] 100).strike
        = some 105 ∧
    (getOptionMetrics 0 9 [⟨some 300, some [⟨some 105, none, none, none, 0⟩]⟩] 100).bid
        = none ∧
    (getOptionMetrics 0 9 [⟨some 300, some [⟨some 105, none, none, none, 0⟩]⟩] 100).ask
        = none := by
  decide

/-- C4 (amended): the IV-rank proxy is defined iff the *chosen* contract's IV
is present AND at least two (positive) ATM implied volatilities were observed
with distinct values; when defined it is the chosen IV's position between the
observed minimum and maximum, scaled to 0-100 and clamped. -/
theorem ivrank_defined_iff (today minMonths : ℤ) (options : List ExpiryEntry) (spot : ℚ) :
    (∀ v, (getOptionMetrics today minMonths options spot).iv_rank = some v →
      ∃ pd c, chosenPick today minMonths options spot = some (pd, c) ∧
      ∃ ivNow, c.iv = some ivNow ∧
      ∃ x y rest, observedIvs today minMonths options spot = x :: y :: rest ∧
        (y :: rest).foldl min x < (y :: rest).foldl max x ∧
        v = clamp ((ivNow - (y :: rest).foldl min x) /
          ((y :: rest).foldl max x - (y :: rest).foldl min x) * 100)) ∧
    (∀ pd c ivNow x y rest, chosenPick today minMonths options spot = some (pd, c) →
      c.iv = some ivNow → observedIvs today minMonths options spot = x :: y :: rest →
      (y :: rest).foldl min x < (y :: rest).foldl max x →
      (getOptionMetrics today minMonths options spot).iv_rank =
        some (clamp ((ivNow - (y :: rest).foldl min x) /
          ((y :: rest).foldl max x - (y :: rest).foldl min x) * 100))) := by
  constructor
  · intro v hv
    unfold getOptionMetrics at hv
    split_ifs at hv with h1 h2
    · simp [optFail] at hv
    · simp [optFail] at hv
    · cases hcp : chosenPick today minMonths options spot with
      | none => rw [hcp] at hv; simp [optFail] at hv
      | some pc =>
        cases pc with
        | mk pd c =>
          rw [hcp] at hv
          dsimp only at hv
          unfold assembleQuote at hv
          dsimp only at hv
          cases hiv : c.iv with
          | none => rw [hiv] at hv; simp at hv
          | some ivNow =>
            rw [hiv] at hv
            dsimp only at hv
            rcases hobs : observedIvs today minMonths options spot with - | ⟨x, - | ⟨y, rest⟩⟩
            · rw [hobs] at hv; simp at hv
            · rw [hobs] at hv; simp at hv
            · rw [hobs] at hv
              dsimp only at hv
              split_ifs at hv with hlt
              exact ⟨pd, c, rfl, ivNow, hiv, x, y, rest, rfl, hlt,
                (Option.some.inj hv).symm⟩
  · intro pd c ivNow x y rest hcp hiv hobs hlt
    rw [getOptionMetrics_of_chosen hcp]
    unfold assembleQuote
    dsimp only
    rw [hiv]
    dsimp only
    rw [hobs]
    dsimp only
    rw [if_pos hlt]

/-- Input refuting C4 as stated: the preferred (earliest) long-dated
expiration's ATM call has no implied volatility, while two later ones
contribute the distinct observations 30 and 50. -/
def optsC4 : List ExpiryEntry :=
  [⟨some 300, some [⟨some 100, some 1, some 2, none, 0⟩]⟩,
   ⟨some 400, some [⟨some 100, some 1, some 2, some 30, 0⟩]⟩,
   ⟨some 500, some [⟨some 100, some 1, some 2, some 50, 0⟩]⟩]

/-- C4 counterexample: two distinct-valued ATM IVs were observed across the
eligible expirations, yet the IV-rank proxy is absent (the chosen contract's
own IV is missing) — refuting the claimed "if and only if". -/
theorem ivrank_absent_despite_two_distinct :
    observedIvs 0 9 optsC4 100 = [30, 50] ∧
    (getOptionMetrics 0 9 optsC4 100).layer3_pass = true ∧
    (getOptionMetrics 0 9 optsC4 100).iv_rank = none := by
  decide

/-- Input for the C4 witness: ATM IVs observed 40 (chosen), 30 and 50. -/
def optsC4w : List ExpiryEntry :=
  [⟨some 300, some [⟨some 100, some 1, some 2, some 40, 0⟩]⟩,
   ⟨some 400, some [⟨some 100, some 1, some 2, some 30, 0⟩]⟩,
   ⟨some 500, some [⟨some 100, some 1, some 2, some 50, 0⟩]⟩]

/-- Witness for C4's amended rule: chosen IV 40 halfway between observations
30 and 50 gives IV-rank 50 (mirroring the spec scenario 0.3/0.4/0.5 up to
scale, which the linear rank is invariant under). -/
theorem ivrank_defined_iff_witness : (getOptionMetrics 0 9 optsC4w 100).iv_rank = some 50 := by
  have h := (ivrank_defined_iff 0 9 optsC4w 100).2 300
    ⟨some 100, some 1, some 2, some 40, 0⟩ 40 40 30 [50]
    (by decide) rfl (by decide) (by decide)
  rw [h]
  norm_num [clamp]

/-- C7 (amended): for a chosen contract with strike and bid present and ask
present *and positive*, and positive spot, the required-move-to-double is
((strike + 2*midpoint)/spot - 1)*100. -/
theorem required_move_formula (today minMonths : ℤ) (options : List ExpiryEntry)
    (spot : ℚ) (pd : ℤ) (c : CallContract) (s b a : ℚ)
    (hc : chosenPick today minMonths options spot = some (pd, c))
    (hst : c.strike = some s) (hb : c.bid = some b) (ha : c.ask = some a)
    (hapos : 0 < a) (hspos : 0 < spot) :
    (getOptionMetrics today minMonths options spot).required_move_for_2x_pct =
      some (((s + 2 * ((b + a) / 2)) / spot - 1) * 100) := by
  rw [getOptionMetrics_of_chosen hc]
  unfold assembleQuote
  dsimp only
  rw [hb, ha]
  dsimp only
  rw [if_pos hapos]
  dsimp only
  rw [hst]
  dsimp only
  rw [if_pos ⟨ne_of_gt hspos, hspos⟩]

/-- C7 counterexample: strike, bid, and ask are all present (bid = ask = 0)
and spot = 100 > 0, yet the required-move field is absent, not the value
((105 + 2*0)/100 - 1)*100 = 5 the claim's formula demands. -/
theorem required_move_absent_with_zero_ask :
    (getOptionMetrics 0 9 [⟨some 300, some [⟨some 105, some 0, some 0, none, 0⟩]⟩] 100).layer3_pass
        = true ∧
    (getOptionMetrics 0 9 [⟨some 300, some [⟨some 105, some 0, some 0, none, 0⟩]⟩] 100).strike
        = some 105 ∧
    (getOptionMetrics 0 9 [⟨some 300, some [⟨some 105, some 0, some 0, none, 0⟩]⟩] 100).bid
        = some 0 ∧
    (getOptionMetrics 0 9 [⟨some 300, some [⟨some 105, some 0, some 0, none, 0⟩]⟩] 100).ask
        = some 0 ∧
    (getOptionMetrics 0 9 [⟨some 300, some [⟨some 105, some 0, some 0, none, 0⟩]⟩] 100).required_move_for_2x_pct
        = none := by
  decide

/-- Witness for C7: the spec's scenario spot 100, strike 105, bid 8, ask 9
gives premium 8.5 and required move 22.0%. -/
theorem required_move_formula_witness :
    (getOptionMetrics 0 9 [⟨some 300, some [⟨some 105, some 8, some 9, none, 0⟩]⟩] 100).required_move_for_2x_pct
      = some 22 := by
  have h := required_move_formula 0 9 [⟨some 300, some [⟨some 105, some 8, some 9, none, 0⟩]⟩]
    100 300 ⟨some 105, some 8, some 9, none, 0⟩ 105 8 9 (by decide) rfl rfl rfl
    (by norm_num) (by norm_num)
  rw [h]
  simp only [Option.some.injEq]
  norm_num

/-- One daily price bar (only close and volume are read). -/
structure Bar where
  close : ℚ
  volume : ℚ
  deriving Repr, DecidableEq

/-- The dictionary `get_technical_metrics` returns. -/
structure TechMetrics where
  price : Option ℚ
  rsi14 : Option ℚ
  drawdown_52w_pct : Option ℚ
  vol_quot : Option ℚ           -- `vol_ratio` in the source
  vol_spike : Option Bool
  deriving Repr, DecidableEq

/-- `get_technical_metrics(hist)`.  `rsiF` abstracts the third-party
`RSIIndicator(close, window=14).rsi()` call on the close series; the guard,
drawdown, and volume-ratio arithmetic are embedded exactly. -/
def getTechnicalMetrics (rsiF : List ℚ → Option ℚ) (hist : List Bar) : TechMetrics :=
  if hist.length < 30 then ⟨none, none, none, none, none⟩
  else
    let closes := hist.map (fun bar => bar.close)
    let volumes := hist.map (fun bar => bar.volume)
    let price := closes.getLast?
    let rsi14 := rsiF closes
    let high52 := match closes with
      | [] => none
      | c :: cs => some (cs.foldl max c)
    let drawdown := match price, high52 with
      -- `if price is not None and high_52w and high_52w > 0`
      | some p, some h => if h ≠ 0 ∧ 0 < h then some ((p / h - 1) * 100) else none
      | _, _ => none
    -- 20-day rolling mean of volume, last row (NaN when fewer than 20 rows)
    let v20 := if volumes.length < 20 then none
      else some ((volumes.drop (volumes.length - 20)).sum / 20)
    let v0 := volumes.getLast?
    let volPair : Option ℚ × Option Bool := match v20, v0 with
      -- `if v20 and v20 > 0 and v0 is not None`
      | some m, some v =>
        if m ≠ 0 ∧ 0 < m then (some (v / m), some (decide (1.5 < v / m)))
        else (none, none)
      | _, _ => (none, none)
    ⟨price, rsi14, drawdown, volPair.1, volPair.2⟩

/-- The anomaly markers the Sanity Checker can append (the source stores
formatted strings; the payloads here carry the interpolated values). -/
inductive SanityFlag where
  | shareStructure
  | revGrowthHigh (r : ℚ)
  | epsGrowthHigh (e : ℚ)
  | epsFwdGrowthHigh (e : ℚ)
  | lowBase (t f : ℚ)
  | pegLow (p : ℚ)
  | epsVolatile
  deriving Repr, DecidableEq

/-- The provider fields `analyze_ticker` reads from `tk.info` (each already
passed through `safe_float`), plus the quarterly "Reported EPS" column
(`none` = the fetch raised or returned `None`; inner `none`s are the NaNs
that `dropna` removes).  `peg` is the provider's `pegRatio`, `trailingPeg`
its `trailingPegRatio`. -/
structure Info where
  revenueGrowth : Option ℚ
  earningsGrowth : Option ℚ
  trailingEps : Option ℚ
  forwardEps : Option ℚ
  peg : Option ℚ
  trailingPeg : Option ℚ
  marketCap : Option ℚ
  sharesOutstanding : Option ℚ
  floatShares : Option ℚ
  targetMeanPrice : Option ℚ
  targetMedianPrice : Option ℚ
  quarterlyReported : Option (List (Option ℚ))
  deriving Repr, DecidableEq

/-- Forward EPS growth `(forwardEps - trailingEps) / |trailingEps|`, computed
only when `|trailingEps| > 0.01`. -/
def epsGrowthForward (trailing forward : Option ℚ) : Option ℚ :=
  match trailing, forward with
  | some t, some f => if 0.01 < |t| then some ((f - t) / |t|) else none
  | _, _ => none

/-- Sanity check 1: share-structure anomaly (flag only). -/
def check1 (info : Info) : Option SanityFlag :=
  match info.sharesOutstanding, info.floatShares with
  | some so, some fl =>
    -- `if shares_outstanding and float_shares:` (truthiness)
    if so ≠ 0 ∧ fl ≠ 0 then
      if 0 < fl ∧ 1.3 < so / fl then some .shareStructure else none
    else none
  | _, _ => none

/-- Sanity check 2: revenue growth above the cap — flag and null. -/
def check2 (rev : Option ℚ) : Option ℚ × Option SanityFlag :=
  match rev with
  | some r => if REV_GROWTH_CAP < r then (none, some (.revGrowthHigh r)) else (rev, none)
  | none => (none, none)

/-- Sanity check 3: quarterly EPS growth magnitude above the cap — flag and null. -/
def check3 (eps : Option ℚ) : Option ℚ × Option SanityFlag :=
  match eps with
  | some e => if EPS_GROWTH_CAP < |e| then (none, some (.epsGrowthHigh e)) else (eps, none)
  | none => (none, none)

/-- Sanity check 3b: forward EPS growth magnitude above the cap — flag and null. -/
def check3b (epsFwd : Option ℚ) : Option ℚ × Option SanityFlag :=
  match epsFwd with
  | some e => if EPS_GROWTH_CAP < |e| then (none, some (.epsFwdGrowthHigh e)) else (epsFwd, none)
  | none => (none, none)

/-- Sanity check 4: low-base effect — flag and null forward EPS growth. -/
def check4 (trailing forward : Option ℚ) (epsFwd : Option ℚ) : Option ℚ × Option SanityFlag :=
  match trailing, forward with
  | some t, some f =>
    if |t| < 0.5 ∧ 5.0 < f then (none, some (.lowBase t f)) else (epsFwd, none)
  | _, _ => (epsFwd, none)

/-- Sanity check 5: suspiciously low PEG — flag only, value kept. -/
def check5 (peg : Option ℚ) : Option SanityFlag :=
  match peg with
  | some p => if p < 0.2 then some (.pegLow p) else none
  | none => none

/-- Sanity check 6: quarterly-EPS volatility.  The source compares
`eps_std / eps_mean > 5` with `eps_std = sqrt(varPop)`; both sides are
nonnegative, so the embedded test is the equivalent squared comparison
`varPop > 25 * meanAbs^2`. -/
def check6 (qrows : Option (List (Option ℚ))) : Option SanityFlag :=
  match qrows with
  | none => none
  | some rows =>
    if 4 ≤ rows.length then
      let vals := rows.filterMap id
      let last4 := vals.drop (vals.length - 4)
      if 4 ≤ last4.length then
        let n : ℚ := (last4.length : ℚ)
        let meanAbs := (last4.map (fun x => |x|)).sum / n
        let mu := last4.sum / n
        let varPop := (last4.map (fun x => (x - mu) ^ 2)).sum / n
        if 0 < meanAbs ∧ EPS_VOLATILITY_MAX ^ 2 * meanAbs ^ 2 < varPop then some .epsVolatile
        else none
      else none
    else none

/-- The growth fields after all sanity rules, plus the accumulated flags
(in source order). -/
structure Sanitized where
  rev : Option ℚ
  eps : Option ℚ
  epsFwd : Option ℚ
  flags : List SanityFlag
  deriving Repr, DecidableEq

/-- The sanity-check block of `analyze_ticker` (checks 1-6 in order). -/
def sanitize (info : Info) : Sanitized :=
  let f1 := check1 info
  let c2 := check2 info.revenueGrowth
  let c3 := check3 info.earningsGrowth
  let c3b := check3b (epsGrowthForward info.trailingEps info.forwardEps)
  let c4 := check4 info.trailingEps info.forwardEps c3b.1
  let f5 := check5 info.peg
  let f6 := check6 info.quarterlyReported
  ⟨c2.1, c3.1, c4.1, ([f1, c2.2, c3.2, c3b.2, c4.2, f5, f6]).filterMap id⟩

/-- `if peg is None: peg = safe_float(info.get("trailingPegRatio"))` —
the fallback runs after the sanity block, which never nulls the PEG. -/
def effectivePeg (info : Info) : Option ℚ :=
  match info.peg with
  | some p => some p
  | none => info.trailingPeg

/-- `targetMeanPrice`, falling back to `targetMedianPrice` when absent. -/
def targetPrice (info : Info) : Option ℚ :=
  match info.targetMeanPrice with
  | some t => some t
  | none => info.targetMedianPrice

/-- `upside = target_price / price - 1`, defined when both are present and
the price is positive. -/
def computeUpside (target price : Option ℚ) : Option ℚ :=
  match target, price with
  | some t, some p => if 0 < p then some (t / p - 1) else none
  | _, _ => none

lemma computeUpside_price_none (target : Option ℚ) : computeUpside target none = none := by
  cases target <;> rfl

/-- Layer-1 clause: `rev_growth is not None and rev_growth > REV_GROWTH_MIN`. -/
def revClause (rev : Option ℚ) : Bool :=
  match rev with
  | some r => decide (REV_GROWTH_MIN < r)
  | none => false

/-- Layer-1 clause: quarterly-or-forward EPS growth above the minimum. -/
def epsClause (eps epsFwd : Option ℚ) : Bool :=
  (match eps with
    | some e => decide (EPS_GROWTH_MIN < e)
    | none => false) ||
  (match epsFwd with
    | some e => decide (EPS_GROWTH_MIN < e)
    | none => false)

/-- Layer-1 clause: `peg is not None and peg < PEG_MAX`. -/
def pegClause (peg : Option ℚ) : Bool :=
  match peg with
  | some p => decide (p < PEG_MAX)
  | none => false

/-- Layer-1 clause: `market_cap is not None and market_cap > MARKET_CAP_MIN`. -/
def mcapClause (mcap : Option ℚ) : Bool :=
  match mcap with
  | some v => decide (MARKET_CAP_MIN < v)
  | none => false

/-- Layer-1 clause: `upside is not None and upside > UPSIDE_MIN`. -/
def upsideClause (upside : Option ℚ) : Bool :=
  match upside with
  | some v => decide (UPSIDE_MIN < v)
  | none => false

/-- The Layer-1 conjunction `l1 = all([...])`. -/
def layer1Pass (rev eps epsFwd peg mcap upside : Option ℚ) : Bool :=
  revClause rev && epsClause eps epsFwd && pegClause peg && mcapClause mcap &&
    upsideClause upside

/-- The distinct reason strings a StockResult can carry. -/
inductive Reason where
  | layer1Fail                      -- "未通过 Layer 1 基本面筛选"
  | layer2Fail                      -- "未通过 Layer 2 技术面筛选"
  | layer3Fail (r : OptReason)      -- "未通过 Layer 3 期权筛选：..."
  | passedAll                       -- "通过全部筛选"
  | processingFailed (detail : String)  -- "处理失败：..."
  deriving Repr, DecidableEq

/-- The `StockResult` dataclass. -/
structure StockResult where
  ticker : String
  score : ℚ
  layer1_pass : Bool
  layer2_pass : Bool
  layer3_pass : Bool
  reason : Reason
  current_price : Option ℚ
  revenue_growth : Option ℚ
  eps_growth : Option ℚ
  eps_growth_forward : Option ℚ
  trailing_eps : Option ℚ
  forward_eps : Option ℚ
  peg : Option ℚ
  market_cap : Option ℚ
  upside : Option ℚ
  rsi14 : Option ℚ
  drawdown_52w_pct : Option ℚ
  vol_spike : Option Bool
  vol_quot : Option ℚ              -- `vol_ratio` in the source
  leap_expiry : Option ℤ
  leap_strike : Option ℚ
  call_bid : Option ℚ
  call_ask : Option ℚ
  call_spread_pct : Option ℚ
  iv_rank : Option ℚ
  required_move_for_2x_pct : Option ℚ
  sanity_flags : Option (List SanityFlag)
  deriving Repr, DecidableEq

/-- The ambient collaborators of one run: the RSI routine, `math.log10`, and
today's date (for the option cutoff). -/
structure Env where
  rsi : List ℚ → Option ℚ
  log10 : ℚ → ℚ
  today : ℤ

/-- Everything one ticker's raw-data retrieval yields. -/
structure RawData where
  info : Info
  hist : List Bar
  options : List ExpiryEntry

/-- The body of `analyze_ticker`'s `try` block (raw data already fetched). -/
def analyzeTickerData (env : Env) (requireVolumeSpike : Bool) (ticker : String)
    (d : RawData) : StockResult :=
  let tech := getTechnicalMetrics env.rsi d.hist
  let price := tech.price
  let s := sanitize d.info
  let peg := effectivePeg d.info
  let market_cap := d.info.marketCap
  let upside := computeUpside (targetPrice d.info) price
  let flagsOpt := if s.flags.isEmpty then none else some s.flags
  let l1 := layer1Pass s.rev s.eps s.epsFwd peg market_cap upside
  if l1 then
    let rsi14 := tech.rsi14
    let dd52 := tech.drawdown_52w_pct
    let volSpike := tech.vol_spike
    let l2a := (match rsi14 with
        | some r => decide (r < RSI_MAX)
        | none => false)
      && (match dd52 with
        | some v => decide (DRAWDOWN_MIN < v)
        | none => false)
    -- `if require_volume_spike: l2 = l2 and bool(vol_spike)`
    let l2 := if requireVolumeSpike then
        l2a && (match volSpike with
          | some b => b
          | none => false)
      else l2a
    if l2 then
      -- `spot=price if price else 0.0`
      let spot := match price with
        | some p => if p = 0 then 0 else p
        | none => 0
      let opt := getOptionMetrics env.today LONG_DTE_MONTHS d.options spot
      if opt.layer3_pass then
        let best_eps := match s.epsFwd with
          | none => s.eps
          | some f => match s.eps with
            | none => some f
            | some e => if e < f then some f else some e
        let m : ScoreMetrics :=
          ⟨s.rev, best_eps, peg, market_cap, upside, rsi14, dd52, tech.vol_quot,
           opt.spread_pct, opt.iv_rank, opt.required_move_for_2x_pct⟩
        { ticker := ticker, score := scoreStock env.log10 m,
          layer1_pass := true, layer2_pass := true, layer3_pass := true,
          reason := .passedAll,
          current_price := price, revenue_growth := s.rev, eps_growth := s.eps,
          eps_growth_forward := s.epsFwd, trailing_eps := d.info.trailingEps,
          forward_eps := d.info.forwardEps, peg := peg, market_cap := market_cap,
          upside := upside, rsi14 := rsi14, drawdown_52w_pct := dd52,
          vol_spike := volSpike, vol_quot := tech.vol_quot,
          leap_expiry := opt.expiry, leap_strike := opt.strike,
          call_bid := opt.bid, call_ask := opt.ask, call_spread_pct := opt.spread_pct,
          iv_rank := opt.iv_rank,
          required_move_for_2x_pct := opt.required_move_for_2x_pct,
          sanity_flags := flagsOpt }
      else
        { ticker := ticker, score := 0,
          layer1_pass := true, layer2_pass := true, layer3_pass := false,
          reason := .layer3Fail opt.reason,
          current_price := price, revenue_growth := s.rev, eps_growth := s.eps,
          eps_growth_forward := s.epsFwd, trailing_eps := d.info.trailingEps,
          forward_eps := d.info.forwardEps, peg := peg, market_cap := market_cap,
          upside := upside, rsi14 := rsi14, drawdown_52w_pct := dd52,
          vol_spike := volSpike, vol_quot := tech.vol_quot,
          leap_expiry := none, leap_strike := none, call_bid := none,
          call_ask := none, call_spread_pct := none, iv_rank := none,
          required_move_for_2x_pct := none, sanity_flags := flagsOpt }
    else
      { ticker := ticker, score := 0,
        layer1_pass := true, layer2_pass := false, layer3_pass := false,
        reason := .layer2Fail,
        current_price := price, revenue_growth := s.rev, eps_growth := s.eps,
        eps_growth_forward := s.epsFwd, trailing_eps := d.info.trailingEps,
        forward_eps := d.info.forwardEps, peg := peg, market_cap := market_cap,
        upside := upside, rsi14 := rsi14, drawdown_52w_pct := dd52,
        vol_spike := volSpike, vol_quot := tech.vol_quot,
        leap_expiry := none, leap_strike := none, call_bid := none,
        call_ask := none, call_spread_pct := none, iv_rank := none,
        required_move_for_2x_pct := none, sanity_flags := flagsOpt }
  else
    { ticker := ticker, score := 0,
      layer1_pass := false, layer2_pass := false, layer3_pass := false,
      reason := .layer1Fail,
      current_price := price, revenue_growth := s.rev, eps_growth := s.eps,
      eps_growth_forward := s.epsFwd, trailing_eps := d.info.trailingEps,
      forward_eps := d.info.forwardEps, peg := peg, market_cap := market_cap,
      upside := upside, rsi14 := tech.rsi14, drawdown_52w_pct := tech.drawdown_52w_pct,
      vol_spike := tech.vol_spike, vol_quot := tech.vol_quot,
      leap_expiry := none, leap_strike := none, call_bid := none,
      call_ask := none, call_spread_pct := none, iv_rank := none,
      required_move_for_2x_pct := none, sanity_flags := flagsOpt }

/-- `analyze_ticker`: the raw-data retrieval outcome is passed in as an
`Except` (the `except Exception` arm becomes the `error` case). -/
def analyzeTicker (env : Env) (requireVolumeSpike : Bool) (ticker : String)
    (fetch : Except String RawData) : StockResult :=
  match fetch with
  | .error e =>
    { ticker := ticker, score := 0,
      layer1_pass := false, layer2_pass := false, layer3_pass := false,
      reason := .processingFailed e,
      current_price := none, revenue_growth := none, eps_growth := none,
      eps_growth_forward := none, trailing_eps := none, forward_eps := none,
      peg := none, market_cap := none, upside := none, rsi14 := none,
      drawdown_52w_pct := none, vol_spike := none, vol_quot := none,
      leap_expiry := none, leap_strike := none, call_bid := none,
      call_ask := none, call_spread_pct := none, iv_rank := none,
      required_move_for_2x_pct := none, sanity_flags := none }
  | .ok d => analyzeTickerData env requireVolumeSpike ticker d

/-- The batch loop of `main`: one result per ticker, in order. -/
def runScan (env : Env) (requireVolumeSpike : Bool)
    (univ : List (String × Except String RawData)) : List StockResult :=
  univ.map (fun p => analyzeTicker env requireVolumeSpike p.1 p.2)

lemma layer1Pass_upside_none (rev eps epsFwd peg mcap : Option ℚ) :
    layer1Pass rev eps epsFwd peg mcap none = false := by
  simp [layer1Pass, upsideClause]

lemma layer1Pass_rev_none (eps epsFwd peg mcap upside : Option ℚ) :
    layer1Pass none eps epsFwd peg mcap upside = false := by
  simp [layer1Pass, revClause]

/-- C1: every result's composite score lies in [0,100], and the score is
exactly 0 whenever any of the three layer-pass flags is false. -/
theorem score_in_range_and_zero_on_fail (env : Env) (req : Bool) (t : String)
    (fetch : Except String RawData) :
    (0 ≤ (analyzeTicker env req t fetch).score ∧
      (analyzeTicker env req t fetch).score ≤ 100) ∧
    (((analyzeTicker env req t fetch).layer1_pass = false ∨
      (analyzeTicker env req t fetch).layer2_pass = false ∨
      (analyzeTicker env req t fetch).layer3_pass = false) →
      (analyzeTicker env req t fetch).score = 0) := by
  cases fetch with
  | error e =>
    exact ⟨⟨le_refl 0, by show (0:ℚ) ≤ 100; norm_num⟩, fun _ => rfl⟩
  | ok d =>
    unfold analyzeTicker analyzeTickerData
    dsimp only
    split_ifs
    all_goals first
      | (refine ⟨⟨scoreStock_nonneg _ _, scoreStock_le_100 _ _⟩, ?_⟩
         rintro (h | h | h) <;> simp at h)
      | exact ⟨⟨le_refl 0, by show (0:ℚ) ≤ 100; norm_num⟩, fun _ => rfl⟩

/-- Witness for C1 at a concretely failing fetch: all flags false, score 0. -/
theorem score_in_range_and_zero_on_fail_witness :
    (analyzeTicker ⟨fun _ => none, fun _ => 0, 0⟩ false "T" (.error "boom")).score = 0 :=
  (score_in_range_and_zero_on_fail ⟨fun _ => none, fun _ => 0, 0⟩ false "T"
    (.error "boom")).2 (Or.inl rfl)

/-- Core of C2: with an empty bar series every technical metric is absent,
and the result fails at Layer 1 (the absent price leaves the analyst-upside
clause unsatisfiable), with the Layer-1 reason. -/
lemma empty_hist_core (env : Env) (req : Bool) (t : String) (d : RawData)
    (h : d.hist = []) :
    (analyzeTicker env req t (.ok d)).current_price = none ∧
    (analyzeTicker env req t (.ok d)).rsi14 = none ∧
    (analyzeTicker env req t (.ok d)).drawdown_52w_pct = none ∧
    (analyzeTicker env req t (.ok d)).vol_quot = none ∧
    (analyzeTicker env req t (.ok d)).vol_spike = none ∧
    (analyzeTicker env req t (.ok d)).layer1_pass = false ∧
    (analyzeTicker env req t (.ok d)).layer2_pass = false ∧
    (analyzeTicker env req t (.ok d)).reason = Reason.layer1Fail := by
  have htech : getTechnicalMetrics env.rsi d.hist = ⟨none, none, none, none, none⟩ := by
    rw [h]; rfl
  unfold analyzeTicker analyzeTickerData
  dsimp only
  rw [htech]
  dsimp only
  rw [computeUpside_price_none, layer1Pass_upside_none, if_neg Bool.false_ne_true]
  exact ⟨rfl, rfl, rfl, rfl, rfl, rfl, rfl, rfl⟩

/-- C2 (amended): empty price history leaves all technical metrics absent and
makes the ticker fail at **Layer 1** (upside needs the current price), with the
reason attributing the fundamentals layer — not Layer 2 as the spec scenario
states. -/
theorem empty_hist_fails_layer1 (env : Env) (req : Bool) (t : String) (d : RawData)
    (h : d.hist = []) :
    (analyzeTicker env req t (.ok d)).current_price = none ∧
    (analyzeTicker env req t (.ok d)).rsi14 = none ∧
    (analyzeTicker env req t (.ok d)).drawdown_52w_pct = none ∧
    (analyzeTicker env req t (.ok d)).vol_quot = none ∧
    (analyzeTicker env req t (.ok d)).vol_spike = none ∧
    (analyzeTicker env req t (.ok d)).layer1_pass = false ∧
    (analyzeTicker env req t (.ok d)).layer2_pass = false ∧
    (analyzeTicker env req t (.ok d)).reason = Reason.layer1Fail :=
  empty_hist_core env req t d h

/-- Fundamentals that would sail through Layer 1 were a price available. -/
def infoC2 : Info :=
  { revenueGrowth := some 0.45, earningsGrowth := none, trailingEps := some 5,
    forwardEps := some 6, peg := some 1.2, trailingPeg := none,
    marketCap := some 50000000000, sharesOutstanding := none, floatShares := none,
    targetMeanPrice := some 200, targetMedianPrice := none, quarterlyReported := none }

/-- C2 counterexample: a ticker with healthy fundamentals but an empty price
history fails with the Layer-1 reason and a false Layer-1 flag; it does not
fail "at Layer 2 with a reason attributing the technical layer". -/
theorem empty_hist_not_layer2 :
    (analyzeTicker ⟨fun _ => some 50, fun _ => 0, 0⟩ false "T"
        (.ok ⟨infoC2, [], []⟩)).layer1_pass = false ∧
    (analyzeTicker ⟨fun _ => some 50, fun _ => 0, 0⟩ false "T"
        (.ok ⟨infoC2, [], []⟩)).reason = Reason.layer1Fail ∧
    (analyzeTicker ⟨fun _ => some 50, fun _ => 0, 0⟩ false "T"
        (.ok ⟨infoC2, [], []⟩)).reason ≠ Reason.layer2Fail := by
  obtain ⟨-, -, -, -, -, h6, -, h8⟩ :=
    empty_hist_core ⟨fun _ => some 50, fun _ => 0, 0⟩ false "T" ⟨infoC2, [], []⟩ rfl
  refine ⟨h6, h8, ?_⟩
  rw [h8]
  simp

/-- Witness for C2's amended statement at the same concrete input. -/
theorem empty_hist_fails_layer1_witness :
    (analyzeTicker ⟨fun _ => some 50, fun _ => 0, 0⟩ false "T"
        (.ok ⟨infoC2, [], []⟩)).rsi14 = none :=
  (empty_hist_fails_layer1 ⟨fun _ => some 50, fun _ => 0, 0⟩ false "T"
    ⟨infoC2, [], []⟩ rfl).2.1

lemma check2_high {r : ℚ} (h : REV_GROWTH_CAP < r) :
    check2 (some r) = (none, some (.revGrowthHigh r)) := by
  unfold check2
  dsimp only
  rw [if_pos h]

lemma sanitize_rev_capped (info : Info) (rg : ℚ) (h : info.revenueGrowth = some rg)
    (hrg : REV_GROWTH_CAP < rg) :
    (sanitize info).rev = none ∧ SanityFlag.revGrowthHigh rg ∈ (sanitize info).flags := by
  unfold sanitize
  dsimp only
  rw [h, check2_high hrg]
  refine ⟨rfl, ?_⟩
  simp [List.mem_filterMap]

/-- C5: revenue growth above the 200% cap is flagged and nulled, and Layer 1
then fails (with the Layer-1 reason, on the now-unsatisfiable revenue clause)
whatever all other fields hold. -/
theorem rev_cap_nulls_and_fails_layer1 (env : Env) (req : Bool) (t : String)
    (d : RawData) (rg : ℚ) (h : d.info.revenueGrowth = some rg)
    (hrg : REV_GROWTH_CAP < rg) :
    (analyzeTicker env req t (.ok d)).layer1_pass = false ∧
    (analyzeTicker env req t (.ok d)).reason = Reason.layer1Fail ∧
    (analyzeTicker env req t (.ok d)).revenue_growth = none ∧
    revClause (sanitize d.info).rev = false ∧
    ∃ l, (analyzeTicker env req t (.ok d)).sanity_flags = some l ∧
      SanityFlag.revGrowthHigh rg ∈ l := by
  obtain ⟨hrev, hmem⟩ := sanitize_rev_capped d.info rg h hrg
  have hne : (sanitize d.info).flags.isEmpty = false := by
    cases hfl : (sanitize d.info).flags with
    | nil => rw [hfl] at hmem; simp at hmem
    | cons a as => rfl
  unfold analyzeTicker analyzeTickerData
  dsimp only
  rw [hrev, layer1Pass_rev_none, if_neg Bool.false_ne_true, hne,
    if_neg Bool.false_ne_true]
  exact ⟨rfl, rfl, rfl, rfl, ⟨(sanitize d.info).flags, rfl, hmem⟩⟩

/-- A concrete 250%-revenue-growth input for the C5 witness. -/
def dC5 : RawData :=
  ⟨{ revenueGrowth := some 2.5, earningsGrowth := none, trailingEps := none,
     forwardEps := none, peg := none, trailingPeg := none, marketCap := none,
     sharesOutstanding := none, floatShares := none, targetMeanPrice := none,
     targetMedianPrice := none, quarterlyReported := none }, [], []⟩

/-- Witness for C5: revenue growth 250% is nulled in the result. -/
theorem rev_cap_nulls_and_fails_layer1_witness :
    (analyzeTicker ⟨fun _ => none, fun _ => 0, 0⟩ false "T" (.ok dC5)).revenue_growth
      = none :=
  (rev_cap_nulls_and_fails_layer1 ⟨fun _ => none, fun _ => 0, 0⟩ false "T" dC5 2.5 rfl
    (by norm_num [REV_GROWTH_CAP])).2.2.1

/-- C8: an errored fetch yields, at its own position, a result with score 0,
all three layer flags false, and the processing-failed reason carrying the
detail; every other position holds exactly the analysis of its own input, and
the batch length is preserved. -/
theorem fetch_error_isolated (env : Env) (req : Bool)
    (univ : List (String × Except String RawData)) (i : ℕ) (t e : String)
    (h : univ[i]? = some (t, Except.error e)) :
    (runScan env req univ).length = univ.length ∧
    (∃ r, (runScan env req univ)[i]? = some r ∧ r.score = 0 ∧
      r.layer1_pass = false ∧ r.layer2_pass = false ∧ r.layer3_pass = false ∧
      r.reason = Reason.processingFailed e) ∧
    (∀ (j : ℕ) (q : String × Except String RawData), univ[j]? = some q →
      (runScan env req univ)[j]? = some (analyzeTicker env req q.1 q.2)) := by
  refine ⟨by simp [runScan], ?_, ?_⟩
  · refine ⟨analyzeTicker env req t (.error e), ?_, rfl, rfl, rfl, rfl, rfl⟩
    unfold runScan
    rw [List.getElem?_map, h]
    rfl
  · intro j q hq
    unfold runScan
    rw [List.getElem?_map, hq]
    rfl

/-- Witness for C8 on a one-ticker batch whose fetch raised "boom". -/
theorem fetch_error_isolated_witness :
    ∃ r, (runScan ⟨fun _ => none, fun _ => 0, 0⟩ false
        [("A", Except.error "boom")])[0]? = some r ∧
      r.score = 0 ∧ r.layer1_pass = false ∧ r.layer2_pass = false ∧
      r.layer3_pass = false ∧ r.reason = Reason.processingFailed "boom" :=
  (fetch_error_isolated ⟨fun _ => none, fun _ => 0, 0⟩ false
    [("A", Except.error "boom")] 0 "A" "boom" rfl).2.1

lemma check1_ne_pegLow (info : Info) (q : ℚ) :
    check1 info ≠ some (SanityFlag.pegLow q) := by
  unfold check1
  split
  · split_ifs <;> simp
  · simp

lemma check2_snd_ne_pegLow (v : Option ℚ) (q : ℚ) :
    (check2 v).2 ≠ some (SanityFlag.pegLow q) := by
  unfold check2
  split
  · split_ifs <;> simp
  · simp

lemma check3_snd_ne_pegLow (v : Option ℚ) (q : ℚ) :
    (check3 v).2 ≠ some (SanityFlag.pegLow q) := by
  unfold check3
  split
  · split_ifs <;> simp
  · simp

lemma check3b_snd_ne_pegLow (v : Option ℚ) (q : ℚ) :
    (check3b v).2 ≠ some (SanityFlag.pegLow q) := by
  unfold check3b
  split
  · split_ifs <;> simp
  · simp

lemma check4_snd_ne_pegLow (trailing forward epsFwd : Option ℚ) (q : ℚ) :
    (check4 trailing forward epsFwd).2 ≠ some (SanityFlag.pegLow q) := by
  unfold check4
  split
  · split_ifs <;> simp
  · simp

lemma check6_ne_pegLow (qrows : Option (List (Option ℚ))) (q : ℚ) :
    check6 qrows ≠ some (SanityFlag.pegLow q) := by
  unfold check6
  split
  · simp
  · split_ifs <;> simp

/-- With the primary PEG absent, rule 5 never fires: no PEG-anomaly flag can
appear in the sanity list. -/
lemma pegLow_not_mem (info : Info) (h1 : info.peg = none) (q : ℚ) :
    SanityFlag.pegLow q ∉ (sanitize info).flags := by
  intro hq
  unfold sanitize at hq
  dsimp only at hq
  obtain ⟨o, ho, hid⟩ := List.mem_filterMap.mp hq
  simp only [List.mem_cons, List.not_mem_nil, or_false] at ho
  rcases ho with rfl | rfl | rfl | rfl | rfl | rfl | rfl
  · exact check1_ne_pegLow info q hid
  · exact check2_snd_ne_pegLow _ q hid
  · exact check3_snd_ne_pegLow _ q hid
  · exact check3b_snd_ne_pegLow _ q hid
  · exact check4_snd_ne_pegLow _ _ _ q hid
  · rw [h1] at hid
    simp [check5] at hid
  · exact check6_ne_pegLow _ q hid

/-- C9: with the primary PEG absent and the trailing fallback below 0.2, the
fallback is substituted only after the sanity rules, so no PEG-anomaly flag is
raised; the fallback value satisfies the Layer-1 PEG clause, is reported in
the result, and is the PEG the Scorer receives on a full pass. -/
theorem peg_fallback_after_sanity (env : Env) (req : Bool) (t : String) (d : RawData)
    (p : ℚ) (h1 : d.info.peg = none) (h2 : d.info.trailingPeg = some p)
    (h3 : p < 0.2) :
    (analyzeTicker env req t (.ok d)).peg = some p ∧
    (∀ l q, (analyzeTicker env req t (.ok d)).sanity_flags = some l →
      SanityFlag.pegLow q ∉ l) ∧
    pegClause (effectivePeg d.info) = true ∧
    ((analyzeTicker env req t (.ok d)).layer3_pass = true →
      ∃ m : ScoreMetrics, m.peg = some p ∧
        (analyzeTicker env req t (.ok d)).score = scoreStock env.log10 m) := by
  have hep : effectivePeg d.info = some p := by
    unfold effectivePeg
    rw [h1]
    exact h2
  refine ⟨?_, ?_, ?_, ?_⟩
  · unfold analyzeTicker analyzeTickerData
    dsimp only
    rw [hep]
    split_ifs <;> rfl
  · intro l q hsf
    have hopt : (analyzeTicker env req t (.ok d)).sanity_flags = none ∨
        (analyzeTicker env req t (.ok d)).sanity_flags = some (sanitize d.info).flags := by
      unfold analyzeTicker analyzeTickerData
      dsimp only
      split_ifs
      all_goals first
        | exact Or.inl rfl
        | exact Or.inr rfl
    rcases hopt with hnone | hsome
    · rw [hnone] at hsf
      exact Option.noConfusion hsf
    · rw [hsome] at hsf
      rw [(Option.some.inj hsf).symm]
      exact pegLow_not_mem d.info h1 q
  · rw [hep]
    simp only [pegClause]
    rw [decide_eq_true_eq]
    unfold PEG_MAX
    linarith
  · unfold analyzeTicker analyzeTickerData
    dsimp only
    rw [hep]
    split_ifs
    all_goals first
      | (refine fun _ => ⟨_, ?_, rfl⟩
         rfl)
      | exact fun hpass => absurd hpass (by simp)

/-- Concrete input for the C9 witness: primary PEG absent, trailing PEG 0.1. -/
def dC9 : RawData :=
  ⟨{ revenueGrowth := none, earningsGrowth := none, trailingEps := none,
     forwardEps := none, peg := none, trailingPeg := some 0.1, marketCap := none,
     sharesOutstanding := none, floatShares := none, targetMeanPrice := none,
     targetMedianPrice := none, quarterlyReported := none }, [], []⟩

/-- Witness for C9: the trailing fallback of 0.1 is the result's PEG. -/
theorem peg_fallback_after_sanity_witness :
    (analyzeTicker ⟨fun _ => none, fun _ => 0, 0⟩ false "T" (.ok dC9)).peg = some 0.1 :=
  (peg_fallback_after_sanity ⟨fun _ => none, fun _ => 0, 0⟩ false "T" dC9 0.1 rfl rfl
    (by norm_num)).1

end LeapScreener
